import Mathlib

/-!
Verification of the kuberhealthy Rust example check client
(src/clients/rust/src/main.rs) against its specification.

The program is a short-lived process: it reads KH_REPORTING_URL and
KH_RUN_UUID from the environment (panicking via `expect` when one is
absent), decides a pass/fail verdict from the presence of the exact
argument "--fail" in argv, builds a `Report`, and sends it as JSON in a
single HTTP POST with a `kh-run-uuid` header, treating a reqwest send
error or an `error_for_status` error (status 400..=599) as a fatal
process failure.

The embedding below is a direct shallow translation: the ambient
environment is a function `String → Option String` (`env::var` yields
`none` exactly when the variable is absent), argv is a `List String`
including argv[0], and the HTTP client plus network is a function
`HttpRequest → HttpResult` giving the final outcome of the blocking
`send()` call (a transport-level error or the final response status
after the client's internal redirect handling).
-/

/-- The `Report` struct of main.rs: field `errors` serialized under the
name "Errors" and field `ok` under the name "OK", in declaration order. -/
structure Report where
  errors : List String
  ok : Bool
deriving DecidableEq, Repr

/-- A JSON value, as much of serde_json's data model as the wire format
of `Report` needs. -/
inductive JsonValue where
  | bool (b : Bool) : JsonValue
  | str (s : String) : JsonValue
  | arr (items : List JsonValue) : JsonValue
  | obj (fields : List (String × JsonValue)) : JsonValue

/-- The JSON object produced for a `Report` by the derived serde
`Serialize` impl: fields in declaration order, renamed to "Errors" and
"OK". -/
def serializeReport (r : Report) : JsonValue :=
  JsonValue.obj
    [("Errors", JsonValue.arr (r.errors.map JsonValue.str)),
     ("OK", JsonValue.bool r.ok)]

/-- Lowercase hex digit, as serde_json's HEX_DIGITS table uses. -/
def hexDigitChar (n : Nat) : Char :=
  if n < 10 then Char.ofNat (48 + n) else Char.ofNat (87 + n)

/-- serde_json's escaping of a single character inside a JSON string:
quote and backslash are backslash-escaped, the control characters with
short forms use them, the remaining control characters use a \u00xx
escape, and everything else is passed through. -/
def escapeChar (c : Char) : String :=
  if c = '"' then "\\\""
  else if c = '\\' then "\\\\"
  else if c = '\x08' then "\\b"
  else if c = '\x09' then "\\t"
  else if c = '\x0a' then "\\n"
  else if c = '\x0c' then "\\f"
  else if c = '\x0d' then "\\r"
  else if c.toNat < 0x20 then
    "\\u00" ++ String.singleton (hexDigitChar (c.toNat / 16)) ++
      String.singleton (hexDigitChar (c.toNat % 16))
  else String.singleton c

/-- serde_json's rendering of a string literal. -/
def renderString (s : String) : String :=
  "\"" ++ String.join (s.data.map escapeChar) ++ "\""

/-- The exact compact byte output of `serde_json::to_vec` for a
`Report` value, as produced by reqwest's `.json(&report)`: the object
opens with \x7b, lists "Errors" then "OK", and closes with \x7d. -/
def renderReport (r : Report) : String :=
  "\x7b\"Errors\":[" ++ String.intercalate "," (r.errors.map renderString) ++
    "],\"OK\":" ++ (cond r.ok "true" "false") ++ "\x7d"

/-- Look up a field of a JSON object by name (first occurrence). -/
def lookupField (fields : List (String × JsonValue)) (k : String) :
    Option JsonValue :=
  (fields.find? (fun p => p.1 == k)).map (fun p => p.2)

/-- Read a JSON string. -/
def asString : JsonValue → Option String
  | JsonValue.str s => some s
  | _ => none

/-- Modelled from the spec: the orchestrator-side decoding of the wire
`Report` object is not part of this client's sources; per the spec the
receiver reads the boolean field "OK" and the string array field
"Errors" of the POSTed JSON object into a Verdict. -/
def deserializeReport (j : JsonValue) : Option Report :=
  match j with
  | JsonValue.obj fields =>
    match lookupField fields "OK", lookupField fields "Errors" with
    | some (JsonValue.bool b), some (JsonValue.arr items) =>
      match items.mapM asString with
      | some errs => some { errors := errs, ok := b }
      | none => none
    | _, _ => none
  | _ => none

/-- The check decision of main.rs line 20:
`env::args().find(|a| a == "--fail").is_none()` — the verdict passes
exactly when no argument (argv[0] included) is the exact string
"--fail". -/
def checkOk (args : List String) : Bool :=
  (args.find? (fun a => a == "--fail")).isNone

/-- The report construction of main.rs lines 22-32: a passing check
yields an empty error list and ok = true, a failing check yields the
single error "example failure" and ok = false. -/
def buildReport (ok : Bool) : Report :=
  if ok then { errors := [], ok := true }
  else { errors := ["example failure"], ok := false }

/-- The outbound HTTP request built by main.rs lines 34-37: POST to the
reporting URL, a kh-run-uuid header, and the content-type header set to
application/json by `.json(&report)`, whose body bytes are the
serde_json serialization of the report. `body` is the JSON value those
bytes denote; `bodyBytes` the bytes themselves. -/
structure HttpRequest where
  method : String
  url : String
  headers : List (String × String)
  body : JsonValue
  bodyBytes : String

/-- Build the request of main.rs lines 34-37. -/
def mkRequest (reporting_url run_uuid : String) (report : Report) :
    HttpRequest :=
  { method := "POST"
  , url := reporting_url
  , headers := [("kh-run-uuid", run_uuid), ("content-type", "application/json")]
  , body := serializeReport report
  , bodyBytes := renderReport report }

/-- Outcome of the blocking `send()` call: a transport-level error
(connection refused, timeout, DNS failure), or the final response with
its status code. -/
inductive HttpResult where
  | transportErr : HttpResult
  | response (status : Nat) : HttpResult
deriving DecidableEq, Repr

/-- How the process terminated: exit 0, a panic out of `expect` on a
missing environment variable (carrying the expect message), or a
delivery error propagated by `?` out of `main` (non-zero exit). -/
inductive ExitKind where
  | success : ExitKind
  | panicMissing (msg : String) : ExitKind
  | deliveryFailure : ExitKind
deriving DecidableEq, Repr

/-- One invocation's observable outcome: the list of HTTP requests
handed to the client for sending, in order, and how the process
exited. -/
structure ExecResult where
  requests : List HttpRequest
  exit : ExitKind

/-- reqwest's `Response::error_for_status`: an error exactly when the
status is a client error (400..=499) or a server error (500..=599). -/
def errorForStatus (status : Nat) : Bool :=
  decide (400 ≤ status ∧ status ≤ 599)

/-- Shallow embedding of `main` (main.rs lines 13-41). `env` is the
process environment, `args` is argv (argv[0] included), `respond` is
the HTTP client plus network. `env::var(name).expect(msg)` panics with
msg exactly when the variable is absent; otherwise (empty string
included) the value is used. The single `send()` is issued with the
built request, and `error_for_status` turns a 400..=599 status into an
error; both errors propagate out of `main` via `?`. -/
def run (env : String → Option String) (args : List String)
    (respond : HttpRequest → HttpResult) : ExecResult :=
  match env "KH_REPORTING_URL" with
  | none => { requests := [], exit := ExitKind.panicMissing "KH_REPORTING_URL must be set" }
  | some reporting_url =>
    match env "KH_RUN_UUID" with
    | none => { requests := [], exit := ExitKind.panicMissing "KH_RUN_UUID must be set" }
    | some run_uuid =>
      let ok := checkOk args
      let report := buildReport ok
      let req := mkRequest reporting_url run_uuid report
      match respond req with
      | HttpResult.transportErr => { requests := [req], exit := ExitKind.deliveryFailure }
      | HttpResult.response status =>
        if errorForStatus status then
          { requests := [req], exit := ExitKind.deliveryFailure }
        else
          { requests := [req], exit := ExitKind.success }

/-- A sample orchestrator-provided environment for concrete runs. -/
def env0 : String → Option String := fun name =>
  if name = "KH_REPORTING_URL" then some "http://kuberhealthy/report"
  else if name = "KH_RUN_UUID" then some "run-uuid-1"
  else none

/-- A sample environment whose KH_RUN_UUID is present but empty. -/
def envEmptyUuid : String → Option String := fun name =>
  if name = "KH_REPORTING_URL" then some "http://kuberhealthy/report"
  else if name = "KH_RUN_UUID" then some ""
  else none

/-- An environment with both variables absent. -/
def envAbsent : String → Option String := fun _ => none

/-- The check passes exactly when "--fail" is not among the arguments. -/
theorem checkOk_eq_true_iff (args : List String) :
    checkOk args = true ↔ "--fail" ∉ args := by
  simp only [checkOk, Option.isNone_iff_eq_none, List.find?_eq_none, beq_iff_eq]
  constructor
  · intro h hm
    exact h _ hm rfl
  · intro h x hx he
    subst he
    exact h hx

/-- The check fails exactly when "--fail" is among the arguments. -/
theorem checkOk_eq_false_iff (args : List String) :
    checkOk args = false ↔ "--fail" ∈ args := by
  rw [← Bool.not_eq_true, checkOk_eq_true_iff]
  simp

/-- Reading back a list of JSON strings recovers the original list,
stated on the accumulator loop underlying `List.mapM`. -/
theorem mapM_loop_asString (l : List String) (acc : List String) :
    List.mapM.loop asString (l.map JsonValue.str) acc =
      some (acc.reverse ++ l) := by
  induction l generalizing acc with
  | nil => simp [List.mapM.loop]
  | cons x xs ih => simp [List.mapM.loop, asString, ih]

/-- Reading back a list of JSON strings recovers the original list. -/
theorem mapM_asString_map_str (l : List String) :
    (l.map JsonValue.str).mapM asString = some l := by
  simpa [List.mapM] using mapM_loop_asString l []

/-- Decoding the serialized form of any Report recovers it exactly. -/
theorem deserialize_serialize (r : Report) :
    deserializeReport (serializeReport r) = some r := by
  cases r with
  | mk errors ok =>
    simp [serializeReport, deserializeReport, lookupField, List.find?,
      mapM_loop_asString, mapM_asString_map_str]

/-- With both variables present, `run` builds the one request and the
outcome depends only on the send result. -/
theorem run_with_env (env : String → Option String) (args : List String)
    (respond : HttpRequest → HttpResult) (url uuid : String)
    (hurl : env "KH_REPORTING_URL" = some url)
    (huuid : env "KH_RUN_UUID" = some uuid) :
    run env args respond =
      match respond (mkRequest url uuid (buildReport (checkOk args))) with
      | HttpResult.transportErr =>
        { requests := [mkRequest url uuid (buildReport (checkOk args))]
        , exit := ExitKind.deliveryFailure }
      | HttpResult.response status =>
        if errorForStatus status then
          { requests := [mkRequest url uuid (buildReport (checkOk args))]
          , exit := ExitKind.deliveryFailure }
        else
          { requests := [mkRequest url uuid (buildReport (checkOk args))]
          , exit := ExitKind.success } := by
  simp [run, hurl, huuid]

/-- With both variables present, exactly the one built request is
handed to the HTTP client, whatever the send outcome. -/
theorem run_requests_eq (env : String → Option String) (args : List String)
    (respond : HttpRequest → HttpResult) (url uuid : String)
    (hurl : env "KH_REPORTING_URL" = some url)
    (huuid : env "KH_RUN_UUID" = some uuid) :
    (run env args respond).requests =
      [mkRequest url uuid (buildReport (checkOk args))] := by
  rw [run_with_env env args respond url uuid hurl huuid]
  rcases respond (mkRequest url uuid (buildReport (checkOk args))) with _ | s
  · rfl
  · by_cases h : errorForStatus s <;> simp [h]

/-- C1: with KH_REPORTING_URL and KH_RUN_UUID both set, no "--fail"
argument (the check succeeds), and the endpoint answering every request
with a 2xx status, the process issues exactly one HTTP POST, whose body
decodes to the Report with OK true and empty Errors, and exits 0. -/
theorem c1_success_run (env : String → Option String) (args : List String)
    (respond : HttpRequest → HttpResult) (url uuid : String) (s : Nat)
    (hurl : env "KH_REPORTING_URL" = some url)
    (huuid : env "KH_RUN_UUID" = some uuid)
    (hargs : "--fail" ∉ args)
    (hs : 200 ≤ s ∧ s ≤ 299)
    (hresp : ∀ req, respond req = HttpResult.response s) :
    (run env args respond).requests.length = 1 ∧
    (∀ req ∈ (run env args respond).requests,
      req.method = "POST" ∧
      deserializeReport req.body = some { errors := [], ok := true }) ∧
    (run env args respond).exit = ExitKind.success := by
  have hok : checkOk args = true := (checkOk_eq_true_iff args).mpr hargs
  have hstat : errorForStatus s = false := by
    simp only [errorForStatus, decide_eq_false_iff_not]
    omega
  rw [run_with_env env args respond url uuid hurl huuid, hresp, hok]
  simp [hstat, mkRequest, buildReport, deserialize_serialize]

/-- C1 witness: a concrete passing run against a 200-answering
endpoint. -/
theorem c1_success_run_witness :
    (run env0 ["check"] (fun _ => HttpResult.response 200)).requests.length = 1 ∧
    (∀ req ∈ (run env0 ["check"] (fun _ => HttpResult.response 200)).requests,
      req.method = "POST" ∧
      deserializeReport req.body = some { errors := [], ok := true }) ∧
    (run env0 ["check"] (fun _ => HttpResult.response 200)).exit = ExitKind.success :=
  c1_success_run env0 ["check"] (fun _ => HttpResult.response 200)
    "http://kuberhealthy/report" "run-uuid-1" 200 rfl rfl (by decide)
    (by decide) (fun _ => rfl)

/-- C2 counterexample: KH_RUN_UUID present but equal to the empty
string. `env::var` returns that empty value, `expect` does not panic,
and the process goes on to hand one request to the HTTP client and, on
a 200 answer, exits 0 — against the claim that an empty required value
means a non-zero exit with no network call. -/
theorem c2_counterexample :
    envEmptyUuid "KH_RUN_UUID" = some "" ∧
    (run envEmptyUuid ["check"] (fun _ => HttpResult.response 200)).requests.length = 1 ∧
    (run envEmptyUuid ["check"] (fun _ => HttpResult.response 200)).exit = ExitKind.success := by
  decide

/-- C2 amended: if either required variable is ABSENT from the
environment, the process exits non-zero through the `expect` panic
whose message names the missing variable, and no request is ever handed
to the HTTP client. (An empty-but-present value is not detected.) -/
theorem c2_absent_env_fatal (env : String → Option String)
    (args : List String) (respond : HttpRequest → HttpResult)
    (h : env "KH_REPORTING_URL" = none ∨ env "KH_RUN_UUID" = none) :
    (run env args respond).requests = [] ∧
    (run env args respond).exit ≠ ExitKind.success ∧
    ∃ name, (name = "KH_REPORTING_URL" ∨ name = "KH_RUN_UUID") ∧
      env name = none ∧
      (run env args respond).exit =
        ExitKind.panicMissing (name ++ " must be set") := by
  rcases hu : env "KH_REPORTING_URL" with _ | url
  · refine ⟨by simp [run, hu], by simp [run, hu],
      "KH_REPORTING_URL", Or.inl rfl, hu, by simp [run, hu]⟩
  · rcases hr : env "KH_RUN_UUID" with _ | uuid
    · refine ⟨by simp [run, hu, hr], by simp [run, hu, hr],
        "KH_RUN_UUID", Or.inr rfl, hr, by simp [run, hu, hr]⟩
    · rcases h with h | h
      · rw [hu] at h
        exact absurd h (by simp)
      · rw [hr] at h
        exact absurd h (by simp)

/-- C2 amended witness: both variables absent. -/
theorem c2_absent_env_fatal_witness :
    (run envAbsent ["check"] (fun _ => HttpResult.response 200)).requests = [] ∧
    (run envAbsent ["check"] (fun _ => HttpResult.response 200)).exit ≠ ExitKind.success ∧
    ∃ name, (name = "KH_REPORTING_URL" ∨ name = "KH_RUN_UUID") ∧
      envAbsent name = none ∧
      (run envAbsent ["check"] (fun _ => HttpResult.response 200)).exit =
        ExitKind.panicMissing (name ++ " must be set") :=
  c2_absent_env_fatal envAbsent ["check"] (fun _ => HttpResult.response 200)
    (Or.inl rfl)

/-- C3 counterexample: a final 304 response is not a 2xx, yet the
process exits 0 — `error_for_status` only rejects 400..=599 — against
the claim that any status outside 2xx is a delivery failure. -/
theorem c3_counterexample :
    (run env0 ["health"] (fun _ => HttpResult.response 304)).requests.length = 1 ∧
    ¬(200 ≤ 304 ∧ 304 ≤ 299) ∧
    (run env0 ["health"] (fun _ => HttpResult.response 304)).exit = ExitKind.success := by
  decide

/-- C3 amended: once the delivery step is reached, the process exits 0
iff the send produced a response whose status is outside 400..=599; any
4xx or 5xx status, and any transport-level error, yield a non-zero
exit. -/
theorem c3_delivery_outcome (env : String → Option String)
    (args : List String) (r : HttpResult) (url uuid : String)
    (hurl : env "KH_REPORTING_URL" = some url)
    (huuid : env "KH_RUN_UUID" = some uuid) :
    (run env args (fun _ => r)).exit = ExitKind.success ↔
      ∃ s, r = HttpResult.response s ∧ ¬(400 ≤ s ∧ s ≤ 599) := by
  rw [run_with_env env args (fun _ => r) url uuid hurl huuid]
  cases r with
  | transportErr => simp
  | response s =>
    by_cases h : 400 ≤ s ∧ s ≤ 599
    · have hb : errorForStatus s = true := by
        simpa only [errorForStatus, decide_eq_true_eq] using h
      simp [hb, h]
    · have hb : errorForStatus s = false := by
        simpa only [errorForStatus, decide_eq_false_iff_not] using h
      simp only [hb, if_false, exists_eq_left]
      simp [Bool.false_eq_true]
      omega

/-- C3 amended witness: a 200 response means exit 0. -/
theorem c3_delivery_outcome_witness :
    (run env0 ["health"] (fun _ => HttpResult.response 200)).exit = ExitKind.success ↔
      ∃ s, HttpResult.response 200 = HttpResult.response s ∧
        ¬(400 ≤ s ∧ s ≤ 599) :=
  c3_delivery_outcome env0 ["health"] (HttpResult.response 200)
    "http://kuberhealthy/report" "run-uuid-1" rfl rfl

/-- C4: whatever the argument list, the Report the program constructs
has ok = true exactly when its errors list is empty: the passing branch
produces ok true with no errors, the failing branch ok false with the
one error, and no other construction exists. -/
theorem c4_report_invariant (args : List String) :
    (buildReport (checkOk args)).ok = true ↔
      (buildReport (checkOk args)).errors = [] := by
  cases h : checkOk args <;> simp [buildReport]

/-- C5: with both variables set and "--fail" among the arguments, the
process issues exactly one POST whose body decodes to the Report with
OK false and the single error "example failure", and exits 0 when the
endpoint answers 2xx. -/
theorem c5_fail_flag_run (env : String → Option String) (args : List String)
    (respond : HttpRequest → HttpResult) (url uuid : String) (s : Nat)
    (hurl : env "KH_REPORTING_URL" = some url)
    (huuid : env "KH_RUN_UUID" = some uuid)
    (hargs : "--fail" ∈ args)
    (hs : 200 ≤ s ∧ s ≤ 299)
    (hresp : ∀ req, respond req = HttpResult.response s) :
    (run env args respond).requests.length = 1 ∧
    (∀ req ∈ (run env args respond).requests,
      req.method = "POST" ∧
      deserializeReport req.body =
        some { errors := ["example failure"], ok := false }) ∧
    (run env args respond).exit = ExitKind.success := by
  have hok : checkOk args = false := (checkOk_eq_false_iff args).mpr hargs
  have hstat : errorForStatus s = false := by
    simp only [errorForStatus, decide_eq_false_iff_not]
    omega
  rw [run_with_env env args respond url uuid hurl huuid, hresp, hok]
  simp [hstat, mkRequest, buildReport, deserialize_serialize]

/-- C5 witness: a concrete run with the "--fail" flag against a
200-answering endpoint. -/
theorem c5_fail_flag_run_witness :
    (run env0 ["check", "--fail"] (fun _ => HttpResult.response 200)).requests.length = 1 ∧
    (∀ req ∈ (run env0 ["check", "--fail"] (fun _ => HttpResult.response 200)).requests,
      req.method = "POST" ∧
      deserializeReport req.body =
        some { errors := ["example failure"], ok := false }) ∧
    (run env0 ["check", "--fail"] (fun _ => HttpResult.response 200)).exit = ExitKind.success :=
  c5_fail_flag_run env0 ["check", "--fail"] (fun _ => HttpResult.response 200)
    "http://kuberhealthy/report" "run-uuid-1" 200 rfl rfl (by decide)
    (by decide) (fun _ => rfl)

/-- C6: whatever the environment, the arguments and the endpoint
behavior, at most one request is ever handed to the HTTP client: there
is no retry and no second report. -/
theorem c6_at_most_one_request (env : String → Option String)
    (args : List String) (respond : HttpRequest → HttpResult) :
    (run env args respond).requests.length ≤ 1 := by
  rcases hu : env "KH_REPORTING_URL" with _ | url
  · simp [run, hu]
  rcases hr : env "KH_RUN_UUID" with _ | uuid
  · simp [run, hu, hr]
  rw [run_requests_eq env args respond url uuid hu hr]
  simp

/-- C7: once the delivery step is reached, the one outbound request
uses method POST, targets exactly the KH_REPORTING_URL value, carries
the header kh-run-uuid with exactly the KH_RUN_UUID value and the
content-type application/json header, and its body is the serialized
Report (bytes produced by serde_json). -/
theorem c7_request_shape (env : String → Option String) (args : List String)
    (respond : HttpRequest → HttpResult) (url uuid : String)
    (hurl : env "KH_REPORTING_URL" = some url)
    (huuid : env "KH_RUN_UUID" = some uuid) :
    (run env args respond).requests =
      [mkRequest url uuid (buildReport (checkOk args))] ∧
    ∀ req ∈ (run env args respond).requests,
      req.method = "POST" ∧
      req.url = url ∧
      ("kh-run-uuid", uuid) ∈ req.headers ∧
      ("content-type", "application/json") ∈ req.headers ∧
      req.body = serializeReport (buildReport (checkOk args)) ∧
      req.bodyBytes = renderReport (buildReport (checkOk args)) := by
  have key := run_requests_eq env args respond url uuid hurl huuid
  refine ⟨key, ?_⟩
  rw [key]
  simp [mkRequest]

/-- C7 witness: the concrete request of a passing run. -/
theorem c7_request_shape_witness :
    (run env0 ["kh-check"] (fun _ => HttpResult.response 200)).requests =
      [mkRequest "http://kuberhealthy/report" "run-uuid-1"
        (buildReport (checkOk ["kh-check"]))] ∧
    ∀ req ∈ (run env0 ["kh-check"] (fun _ => HttpResult.response 200)).requests,
      req.method = "POST" ∧
      req.url = "http://kuberhealthy/report" ∧
      ("kh-run-uuid", "run-uuid-1") ∈ req.headers ∧
      ("content-type", "application/json") ∈ req.headers ∧
      req.body = serializeReport (buildReport (checkOk ["kh-check"])) ∧
      req.bodyBytes = renderReport (buildReport (checkOk ["kh-check"])) :=
  c7_request_shape env0 ["kh-check"] (fun _ => HttpResult.response 200)
    "http://kuberhealthy/report" "run-uuid-1" rfl rfl

/-- A second sample environment: same two required values as `env0`,
written differently and populating unrelated variables. -/
def env1 : String → Option String := fun name =>
  if name = "KH_RUN_UUID" then some "run-uuid-1"
  else if name = "KH_REPORTING_URL" then some "http://kuberhealthy/report"
  else some "unrelated"

/-- C8: serialization round-trip — decoding the serialized form of any
Report recovers a Report equal to the original, both fields preserved,
and the serialized object carries exactly the two fields Errors and OK
and no others. -/
theorem c8_serialization_roundtrip (r : Report) :
    deserializeReport (serializeReport r) = some r ∧
    ∃ fields, serializeReport r = JsonValue.obj fields ∧
      fields.map Prod.fst = ["Errors", "OK"] := by
  exact ⟨deserialize_serialize r, _, rfl, rfl⟩

/-- C9: the verdict fails exactly when some argument is the exact
string "--fail", at any position argv[0] included; any other argument
leaves the verdict passing. -/
theorem c9_fail_flag_detection (args : List String) :
    (buildReport (checkOk args)).ok = false ↔ "--fail" ∈ args := by
  rw [← checkOk_eq_false_iff]
  cases h : checkOk args <;> simp [buildReport]

/-- C10: determinism of the constructed request — two invocations with
the same KH_REPORTING_URL value, the same KH_RUN_UUID value and the
same argument list hand the HTTP client the same requests: same
method, same URL, same headers, same body value and byte-identical body
bytes, independent of everything else in the environment and of the
endpoint's behavior. -/
theorem c10_request_determinism (envA envB : String → Option String)
    (argsA argsB : List String)
    (respondA respondB : HttpRequest → HttpResult)
    (hu : envA "KH_REPORTING_URL" = envB "KH_REPORTING_URL")
    (hr : envA "KH_RUN_UUID" = envB "KH_RUN_UUID")
    (ha : argsA = argsB) :
    (run envA argsA respondA).requests = (run envB argsB respondB).requests := by
  subst ha
  rcases hu2 : envB "KH_REPORTING_URL" with _ | url
  · rw [hu2] at hu
    simp [run, hu, hu2]
  · rw [hu2] at hu
    rcases hr2 : envB "KH_RUN_UUID" with _ | uuid
    · rw [hr2] at hr
      simp [run, hu, hu2, hr, hr2]
    · rw [hr2] at hr
      rw [run_requests_eq envA argsA respondA url uuid hu hr,
        run_requests_eq envB argsA respondB url uuid hu2 hr2]

/-- C10 witness: two differently written environments agreeing on the
two required values, with different responders, produce identical
requests. -/
theorem c10_request_determinism_witness :
    (run env0 ["check"] (fun _ => HttpResult.response 200)).requests =
      (run env1 ["check"] (fun _ => HttpResult.transportErr)).requests :=
  c10_request_determinism env0 env1 ["check"] ["check"]
    (fun _ => HttpResult.response 200) (fun _ => HttpResult.transportErr)
    (by decide) (by decide) rfl
